import Mathlib

/-!
Shallow embedding of the gopher-notify library (package `gopher_notify`).

Two components are modelled, following the source files the claims cite:

* `src/unnamed/part_000` — the observer pattern: `Subject[T]` holding a data
  field, a `sync.Map` of observers, and a leading-edge debounce gate whose
  cooldown is cleared by a detached timer goroutine.
* `src/publish_subscribe.go` (the queue-based revision) — the
  publish/subscribe pattern: `Event[T,D]` with an `async` tag, `Broker[T,D]`
  with a `sync.Map` of per-topic subscriber sets and a buffered channel
  `queue` drained by a single worker goroutine, and `BasePublisher[T,D]`
  whose `Publish` sets the tag and sends on the channel behind a deferred
  `recover()`.

Modelling conventions:

* A `sync.Map` keyed by listener identity with `void` values is modelled as
  an insertion-ordered duplicate-free `List Nat` of listener identities;
  `Store` appends the key when absent and is a no-op otherwise (storing the
  same `void` value again), `Delete` filters it out, and `Range` iterates
  the list front to back. Go guarantees no `Range` iteration order, so
  front-to-back is just one permitted order; wherever iteration order
  itself is at issue, the fan-out is taken over an arbitrary permutation
  of the registry (`notifyObserverIn`) rather than over this one order.
* An observer/subscriber invocation is not executed but recorded: delivery
  functions return the list of calls they perform (or launch, for async
  dispatch), in the order the source performs them.
* Real time and the detached debounce timer goroutine are made explicit:
  the subject state carries a clock `now` and the pending timer's expiry
  (`time.Sleep(d)` inside the goroutine means the flag-clearing write can
  only happen once `d` has elapsed past arming); `elapse` advances the
  clock and `timerFire` is the goroutine's wake-up, which is enabled only
  at or after the expiry.
* The Go channel is a FIFO queue, modelled as a `List` the worker consumes
  front to back; a send on a closed channel panics, modelled as an explicit
  `SendResult.panicked` outcome that the deferred `recover()` in `Publish`
  swallows.
-/

namespace GopherNotify

/-- One recorded `OnUpdate` invocation: which observer was called, the data
value passed, and whether the call was launched as a goroutine (`async`)
or executed inline on the caller's thread. -/
structure Call (T : Type) where
  observer : Nat
  value : T
  async : Bool
deriving DecidableEq, Repr

/-- `sync.Map.Store key void{}`: insert the key if absent (insertion order
is kept), no-op if present. -/
def storeKey (l : List Nat) (k : Nat) : List Nat :=
  if k ∈ l then l else l ++ [k]

/-- State of `Subject[T]` (src/unnamed/part_000 lines 28-40), together with
the explicit environment needed by the debounce machinery: `now` is the
wall clock and `timer` is the pending flag-clearing goroutine's wake-up
time (`none` when no such goroutine is sleeping). -/
structure Subject (T : Type) where
  data : T
  observers : List Nat
  debounceDuration : Nat
  debounceFlag : Bool
  now : Nat
  timer : Option Nat
deriving DecidableEq, Repr

/-- `NewSubject` (lines 42-50): fresh subject, no debounce. `init` is the
zero value of `T`. -/
def NewSubject (T : Type) (init : T) : Subject T :=
  { data := init, observers := [], debounceDuration := 0, debounceFlag := false,
    now := 0, timer := none }

/-- `NewSubjectWithDebounce` (lines 52-64). -/
def NewSubjectWithDebounce (T : Type) (init : T) (duration : Nat) : Subject T :=
  { data := init, observers := [], debounceDuration := duration,
    debounceFlag := false, now := 0, timer := none }

/-- `Subject.notifyObserver` (lines 66-81): `Range` over the observer map,
calling (or `go`-launching) `OnUpdate(subject.data)` for each observer. -/
def notifyObserver {T : Type} (subject : Subject T) (async : Bool) : List (Call T) :=
  subject.observers.map (fun o => { observer := o, value := subject.data, async := async })

/-- The trace of the same fan-out loop when `sync.Map.Range` happens to
hand the observers back in order `π`. Go specifies no `Range` iteration
order, so every permutation of the registry is a permitted `π`;
`notifyObserver` realises the particular choice `π = subject.observers`. -/
def notifyObserverIn {T : Type} (subject : Subject T) (π : List Nat) (async : Bool) :
    List (Call T) :=
  π.map (fun o => { observer := o, value := subject.data, async := async })

/-- `Subject.Register` (lines 83-91): `Store` each observer into the map. -/
def Register {T : Type} (subject : Subject T) (observers : List Nat) : Subject T :=
  { subject with observers := observers.foldl storeKey subject.observers }

/-- `Subject.Remove` (lines 93-99): `Delete` the observer from the map. -/
def Remove {T : Type} (subject : Subject T) (observer : Nat) : Subject T :=
  { subject with observers := subject.observers.filter (fun o => o ≠ observer) }

/-- `Subject.Update` (lines 101-107): store the data; nothing else (the
revision under proof takes no lock here and touches no debounce state). -/
def Update {T : Type} (subject : Subject T) (data : T) : Subject T :=
  { subject with data := data }

/-- `Subject.Notify` (lines 112-130), the whole body under the mutex: if the
debounce flag is set, return with no delivery; otherwise deliver via
`notifyObserver`, and when `debounceDuration > 0` set the flag and spawn
the timer goroutine (modelled by arming `timer` at `now + duration`). -/
def Notify {T : Type} (subject : Subject T) (async : Bool) :
    Subject T × List (Call T) :=
  if subject.debounceFlag then
    (subject, [])
  else
    let calls := notifyObserver subject async
    if 0 < subject.debounceDuration then
      ({ subject with debounceFlag := true,
                      timer := some (subject.now + subject.debounceDuration) }, calls)
    else
      (subject, calls)

/-- `Subject.UpdateAndNotify` (lines 136-139): `Update` then `Notify`, two
separate calls with no lock spanning both. -/
def UpdateAndNotify {T : Type} (subject : Subject T) (data : T) (async : Bool) :
    Subject T × List (Call T) :=
  Notify (Update subject data) async

/-- Wall clock advancing by `t`. -/
def elapse {T : Type} (subject : Subject T) (t : Nat) : Subject T :=
  { subject with now := subject.now + t }

/-- The debounce goroutine's wake-up (lines 125-128): after sleeping the
configured duration — i.e. only once the clock has reached the recorded
expiry — it clears the flag. It delivers nothing, hence the empty call
list. Before the expiry the goroutine is still asleep and nothing happens. -/
def timerFire {T : Type} (subject : Subject T) : Subject T × List (Call T) :=
  match subject.timer with
  | none => (subject, [])
  | some e =>
      if e ≤ subject.now then
        ({ subject with debounceFlag := false, timer := none }, [])
      else
        (subject, [])

/-! ### Publish/subscribe (src/publish_subscribe.go, queue-based revision) -/

/-- `Event[T,D]` (lines 182-189): topic, payload, and the async delivery
tag set at publish time. -/
structure Event (T D : Type) where
  topic : T
  data : D
  async : Bool
deriving DecidableEq, Repr

/-- `NewEvent` (lines 191-206): the tag starts out `false`. -/
def NewEvent {T D : Type} (topic : T) (data : D) : Event T D :=
  { topic := topic, data := data, async := false }

/-- `Event.GetTopic` (lines 208-211). -/
def GetTopic {T D : Type} (e : Event T D) : T := e.topic

/-- `Event.GetData` (lines 213-216). -/
def GetData {T D : Type} (e : Event T D) : D := e.data

/-- One recorded `OnSubscribe` invocation: which subscriber was called and
the event object it was handed. -/
structure SubCall (T D : Type) where
  subscriber : Nat
  event : Event T D
deriving DecidableEq, Repr

/-- Outcome of a raw channel send: a send on a closed channel panics. -/
inductive SendResult where
  | delivered
  | panicked
deriving DecidableEq, Repr

/-- State of `Broker[T,D]` (lines 236-243): the outer `sync.Map` from topic
to per-topic subscriber set, modelled as an insertion-ordered association
list, plus the channel `queue` (FIFO buffer of pending events) and whether
`close(broker.queue)` has been executed. -/
structure Broker (T D : Type) where
  subscribers : List (T × List Nat)
  queue : List (Event T D)
  closed : Bool
deriving DecidableEq, Repr

/-- `broker.subscribers.Load(topic)`. -/
def loadTopic {T D : Type} [DecidableEq T] (broker : Broker T D) (topic : T) :
    Option (List Nat) :=
  (broker.subscribers.find? (fun p => decide (p.1 = topic))).map (fun p => p.2)

/-- `broker.subscribers.Store(topic, l)`: replace the topic's binding in
place when present, append it otherwise. -/
def storeTopic {T : Type} [DecidableEq T] :
    List (T × List Nat) → T → List Nat → List (T × List Nat)
  | [], topic, l => [(topic, l)]
  | p :: rest, topic, l =>
      if p.1 = topic then (topic, l) :: rest
      else p :: storeTopic rest topic l

/-- `NewBroker` (lines 254-267) builds a broker with an empty subscriber
map and an empty queue, and starts the single worker goroutine. -/
def NewBroker (T D : Type) : Broker T D :=
  { subscribers := [], queue := [], closed := false }

/-- `Broker.Subscribe` (lines 296-308): create the topic set lazily, then
`Store` each subscriber into it. -/
def Subscribe {T D : Type} [DecidableEq T] (broker : Broker T D) (topic : T)
    (newSubs : List Nat) : Broker T D :=
  let cur := (loadTopic broker topic).getD []
  { broker with subscribers := storeTopic broker.subscribers topic (newSubs.foldl storeKey cur) }

/-- `Broker.UnSubscribe` (lines 314-320): delete the subscriber from the
topic's set when the topic exists; no-op otherwise. -/
def UnSubscribe {T D : Type} [DecidableEq T] (broker : Broker T D) (topic : T)
    (subscriber : Nat) : Broker T D :=
  match loadTopic broker topic with
  | none => broker
  | some l =>
      { broker with subscribers :=
          storeTopic broker.subscribers topic (l.filter (fun s => s ≠ subscriber)) }

/-- `Broker.RemoveAll` (lines 334-340): clear every topic set and then the
outer map. -/
def RemoveAll {T D : Type} (broker : Broker T D) : Broker T D :=
  { broker with subscribers := [] }

/-- `Broker.Close` (lines 343-346): `RemoveAll` then `close(broker.queue)`. -/
def Close {T D : Type} (broker : Broker T D) : Broker T D :=
  { RemoveAll broker with closed := true }

/-- `Broker.broadcast` (lines 272-290): look up the event's topic; if
absent, return; otherwise `Range` the topic's set, invoking (or
`go`-launching, per `event.async`) `OnSubscribe(event)` on each
subscriber with the event object unchanged. -/
def broadcast {T D : Type} [DecidableEq T] (broker : Broker T D)
    (event : Event T D) : List (SubCall T D) :=
  match loadTopic broker event.topic with
  | none => []
  | some subs => subs.map (fun s => { subscriber := s, event := event })

/-- The raw `broker.queue <- event` send: panics when the channel is
closed, otherwise appends to the FIFO buffer. -/
def sendQueue {T D : Type} (broker : Broker T D) (event : Event T D) :
    Broker T D × SendResult :=
  if broker.closed then (broker, SendResult.panicked)
  else ({ broker with queue := broker.queue ++ [event] }, SendResult.delivered)

/-- `BasePublisher.Publish` (lines 376-383): under a deferred `recover()`,
set `event.async = async` and send the event on the broker's queue. The
recover swallows the panic a post-close send raises, so the caller always
gets a normal return; the returned event is the (mutated) event object. -/
def Publish {T D : Type} (broker : Broker T D) (event : Event T D)
    (async : Bool) : Broker T D × Event T D :=
  let tagged := { event with async := async }
  ((sendQueue broker tagged).1, tagged)

/-- The single worker goroutine (lines 261-265): `for e := range queue`
dequeues events in FIFO order and `broadcast`s each; the full dispatch
trace is the concatenation of the per-event traces in queue order. -/
def workerRun {T D : Type} [DecidableEq T] (broker : Broker T D) :
    List (SubCall T D) :=
  (broker.queue.map (fun e => broadcast broker e)).flatten

/-! ### Interleaving model for Subject concurrency

The mutex in `part_000` guards only the body of `Notify`; `Update` writes
`subject.data` without taking any lock. Each atomic unit is therefore one
micro-operation: a plain store of the data field, or one whole locked
`Notify` body. A concurrent execution of two threads is any order-preserving
interleaving of their micro-operation sequences. -/

/-- An atomic micro-operation on a subject. -/
inductive Act (T : Type) where
  | store : T → Act T
  | notify : Bool → Act T
deriving DecidableEq, Repr

/-- Execute one micro-operation, returning the new state and the calls it
performed. -/
def runAct {T : Type} (s : Subject T) : Act T → Subject T × List (Call T)
  | Act.store v => (Update s v, [])
  | Act.notify async => Notify s async

/-- Execute a schedule (a sequence of micro-operations) front to back,
accumulating the delivery trace. -/
def runActs {T : Type} (s : Subject T) : List (Act T) → Subject T × List (Call T)
  | [] => (s, [])
  | a :: rest =>
      let r1 := runAct s a
      let r2 := runActs r1.1 rest
      (r2.1, r1.2 ++ r2.2)

/-- All order-preserving interleavings of two threads' micro-operation
sequences. -/
def interleavings {α : Type} : List α → List α → List (List α)
  | [], ys => [ys]
  | x :: xs, [] => [x :: xs]
  | x :: xs, y :: ys =>
      (interleavings xs (y :: ys)).map (fun l => x :: l) ++
      (interleavings (x :: xs) ys).map (fun l => y :: l)
termination_by xs ys => xs.length + ys.length

/-! ### Reachable subject states

One step is one public API call completing (or one internal transition:
the debounce goroutine waking, or the clock advancing). -/

/-- One transition of a subject. -/
inductive Step {T : Type} : Subject T → Subject T → Prop where
  | register (s : Subject T) (obs : List Nat) : Step s (Register s obs)
  | remove (s : Subject T) (o : Nat) : Step s (Remove s o)
  | update (s : Subject T) (d : T) : Step s (Update s d)
  | notify (s : Subject T) (async : Bool) : Step s (Notify s async).1
  | updateAndNotify (s : Subject T) (d : T) (async : Bool) :
      Step s (UpdateAndNotify s d async).1
  | timer (s : Subject T) : Step s (timerFire s).1
  | clock (s : Subject T) (t : Nat) : Step s (elapse s t)

/-- States reachable from `NewSubject T init` by any sequence of steps. -/
inductive Reachable {T : Type} (init : T) : Subject T → Prop where
  | base : Reachable init (NewSubject T init)
  | step {s s' : Subject T} : Reachable init s → Step s s' → Reachable init s'

/-! ### Helper lemmas -/

/-- A `Notify` on a clear gate delivers exactly the `notifyObserver` trace. -/
theorem Notify_snd_of_flag_false {T : Type} (s : Subject T) (async : Bool)
    (h : s.debounceFlag = false) :
    (Notify s async).2 = notifyObserver s async := by
  unfold Notify
  rw [h]
  simp only [Bool.false_eq_true, if_false]
  split <;> rfl

/-- A `Notify` on a clear gate with debounce disabled leaves the state
unchanged. -/
theorem Notify_fst_of_no_debounce {T : Type} (s : Subject T) (async : Bool)
    (h : s.debounceFlag = false) (hD : s.debounceDuration = 0) :
    (Notify s async).1 = s := by
  unfold Notify
  rw [h, hD]
  simp

/-- A `Notify` on a clear gate with debounce enabled arms the gate and the
timer. -/
theorem Notify_fst_of_debounce {T : Type} (s : Subject T) (async : Bool)
    (h : s.debounceFlag = false) (hD : 0 < s.debounceDuration) :
    (Notify s async).1 =
      { s with debounceFlag := true, timer := some (s.now + s.debounceDuration) } := by
  unfold Notify
  rw [h]
  simp [hD]

/-- A `Notify` on an armed gate is a total no-op. -/
theorem Notify_of_flag_true {T : Type} (s : Subject T) (async : Bool)
    (h : s.debounceFlag = true) :
    Notify s async = (s, []) := by
  unfold Notify
  rw [h]
  simp

theorem mem_storeKey_self (l : List Nat) (k : Nat) : k ∈ storeKey l k := by
  unfold storeKey
  split
  · assumption
  · simp

theorem storeKey_of_mem {l : List Nat} {k : Nat} (h : k ∈ l) : storeKey l k = l := by
  unfold storeKey
  simp [h]

theorem nodup_storeKey {l : List Nat} (k : Nat) (h : l.Nodup) :
    (storeKey l k).Nodup := by
  unfold storeKey
  split
  · exact h
  · next hk => simpa [List.nodup_append, h] using hk

theorem find?_storeTopic_self {T : Type} [DecidableEq T] :
    ∀ (subs : List (T × List Nat)) (t : T) (l : List Nat),
      (storeTopic subs t l).find? (fun p => decide (p.1 = t)) = some (t, l) := by
  intro subs
  induction subs with
  | nil => intro t l; simp [storeTopic]
  | cons p rest ih =>
      intro t l
      by_cases heq : p.1 = t
      · simp [storeTopic, heq]
      · simp [storeTopic, heq, List.find?, ih]

theorem storeTopic_of_found {T : Type} [DecidableEq T] :
    ∀ (subs : List (T × List Nat)) (t : T) (l : List Nat),
      subs.find? (fun p => decide (p.1 = t)) = some (t, l) →
      storeTopic subs t l = subs := by
  intro subs
  induction subs with
  | nil => intro t l h; simp [List.find?] at h
  | cons p rest ih =>
      intro t l h
      obtain ⟨pt, pl⟩ := p
      by_cases heq : pt = t
      · subst heq
        simp [List.find?] at h
        simp [storeTopic, h]
      · simp [List.find?, heq] at h
        simp [storeTopic, heq, ih t l h]

theorem storeTopic_storeTopic {T : Type} [DecidableEq T] :
    ∀ (subs : List (T × List Nat)) (t : T) (l l' : List Nat),
      storeTopic (storeTopic subs t l) t l' = storeTopic subs t l' := by
  intro subs
  induction subs with
  | nil => intro t l l'; simp [storeTopic]
  | cons p rest ih =>
      intro t l l'
      by_cases heq : p.1 = t
      · simp [storeTopic, heq]
      · simp [storeTopic, heq, ih]

/-- Looking a topic up right after storing it yields what was stored. -/
theorem loadTopic_storeTopic {T D : Type} [DecidableEq T]
    (b : Broker T D) (subs : List (T × List Nat)) (t : T) (l : List Nat)
    (h : b.subscribers = storeTopic subs t l) :
    loadTopic b t = some l := by
  unfold loadTopic
  rw [h, find?_storeTopic_self]
  rfl

/-- The debounce goroutine clears the gate once the clock has reached its
expiry. -/
theorem timerFire_of_expiry_le {T : Type} (s : Subject T) (e : Nat)
    (h : s.timer = some e) (hle : e ≤ s.now) :
    timerFire s = ({ s with debounceFlag := false, timer := none }, []) := by
  unfold timerFire
  rw [h]
  simp [hle]

/-- Before its expiry the debounce goroutine is still asleep. -/
theorem timerFire_of_now_lt {T : Type} (s : Subject T) (e : Nat)
    (h : s.timer = some e) (hlt : s.now < e) :
    timerFire s = (s, []) := by
  unfold timerFire
  rw [h]
  simp [Nat.not_le.mpr hlt]

/-- The debounce goroutine never performs a delivery. -/
theorem timerFire_snd_eq_nil {T : Type} (s : Subject T) :
    (timerFire s).2 = [] := by
  unfold timerFire
  rcases htm : s.timer with _ | e
  · rfl
  · dsimp only
    split <;> rfl

theorem timerFire_fst_duration {T : Type} (s : Subject T) :
    (timerFire s).1.debounceDuration = s.debounceDuration := by
  unfold timerFire
  rcases htm : s.timer with _ | e
  · rfl
  · dsimp only
    split <;> rfl

theorem timerFire_fst_flag_of_false {T : Type} (s : Subject T)
    (h : s.debounceFlag = false) :
    (timerFire s).1.debounceFlag = false := by
  unfold timerFire
  rcases htm : s.timer with _ | e
  · exact h
  · dsimp only
    split
    · rfl
    · exact h

/-! ### Claim theorems -/

/-- C1: Value freshness — after `Update(a); Update(b)`, a `Notify(false)`
delivers `b` to every registered observer and never `a`; in general the
value a notification hands each observer is the subject's `data` field at
the moment `Notify` fires. -/
theorem subject_value_freshness {T : Type} (s : Subject T) (a b : T) (async : Bool)
    (hflag : s.debounceFlag = false) (hne : a ≠ b) :
    (Notify (Update (Update s a) b) false).2 =
      s.observers.map (fun o => { observer := o, value := b, async := false }) ∧
    (∀ c ∈ (Notify (Update (Update s a) b) false).2, c.value = b ∧ c.value ≠ a) ∧
    (∀ s' : Subject T, s'.debounceFlag = false →
      ∀ c ∈ (Notify s' async).2, c.value = s'.data) := by
  have hgen : ∀ (s' : Subject T) (as : Bool), s'.debounceFlag = false →
      ∀ c ∈ (Notify s' as).2, c.value = s'.data := by
    intro s' as h c hc
    rw [Notify_snd_of_flag_false s' as h] at hc
    unfold notifyObserver at hc
    simp only [List.mem_map] at hc
    obtain ⟨o, _, rfl⟩ := hc
    rfl
  have hub : (Update (Update s a) b).debounceFlag = false := hflag
  have h1 : (Notify (Update (Update s a) b) false).2 =
      s.observers.map (fun o => ({ observer := o, value := b, async := false } : Call T)) := by
    rw [Notify_snd_of_flag_false _ _ hub]
    rfl
  refine ⟨h1, ?_, fun s' h => hgen s' async h⟩
  intro c hc
  rw [h1] at hc
  simp only [List.mem_map] at hc
  obtain ⟨o, _, rfl⟩ := hc
  exact ⟨rfl, Ne.symm hne⟩

/-- C2: Leading-edge debounce — with `debounceDuration > 0`, a `Notify`
during cooldown is a total no-op (no delivery, no state change, nothing
scheduled for that call); a `Notify` on a clear gate delivers and arms
the gate with a timer expiring `debounceDuration` past now; the timer
goroutine never delivers anything and clears the gate only once the
duration has elapsed. -/
theorem subject_debounce_leading_edge {T : Type} (s : Subject T) (async : Bool)
    (hD : 0 < s.debounceDuration) :
    (s.debounceFlag = true → Notify s async = (s, [])) ∧
    (∀ s' : Subject T, (timerFire s').2 = []) ∧
    (s.debounceFlag = false →
      (Notify s async).2 = notifyObserver s async ∧
      (Notify s async).1 =
        { s with debounceFlag := true, timer := some (s.now + s.debounceDuration) } ∧
      (∀ t : Nat, t < s.debounceDuration →
        timerFire (elapse (Notify s async).1 t) = (elapse (Notify s async).1 t, [])) ∧
      (∀ t : Nat, s.debounceDuration ≤ t →
        timerFire (elapse (Notify s async).1 t) =
          ({ elapse (Notify s async).1 t with debounceFlag := false, timer := none }, []))) := by
  refine ⟨fun h => Notify_of_flag_true s async h, fun s' => timerFire_snd_eq_nil s', fun h => ?_⟩
  have h1 := Notify_fst_of_debounce s async h hD
  have htm : ∀ t : Nat, (elapse (Notify s async).1 t).timer =
      some (s.now + s.debounceDuration) := by
    intro t; rw [h1]; rfl
  have hnow : ∀ t : Nat, (elapse (Notify s async).1 t).now = s.now + t := by
    intro t; rw [h1]; rfl
  refine ⟨Notify_snd_of_flag_false s async h, h1, ?_, ?_⟩
  · intro t ht
    exact timerFire_of_now_lt _ _ (htm t) (by rw [hnow t]; omega)
  · intro t ht
    exact timerFire_of_expiry_le _ _ (htm t) (by rw [hnow t]; omega)

/-- C10: Zero-debounce invariant — every state reachable from
`NewSubject` (whose `debounceDuration` is 0) has `debounceDuration = 0`
and `debounceFlag = false`, so no `Notify` on such a subject is ever
dropped by the debounce check: it always delivers the full
`notifyObserver` trace. -/
theorem subject_zero_debounce_invariant {T : Type} (init : T) (s : Subject T)
    (h : Reachable init s) :
    s.debounceDuration = 0 ∧ s.debounceFlag = false ∧
    ∀ async : Bool, (Notify s async).2 = notifyObserver s async := by
  have key : s.debounceDuration = 0 ∧ s.debounceFlag = false := by
    induction h with
    | base => exact ⟨rfl, rfl⟩
    | step hr hstep ih =>
        obtain ⟨ihd, ihf⟩ := ih
        cases hstep with
        | register obs => exact ⟨ihd, ihf⟩
        | remove o => exact ⟨ihd, ihf⟩
        | update d => exact ⟨ihd, ihf⟩
        | notify async =>
            rw [Notify_fst_of_no_debounce _ async ihf ihd]
            exact ⟨ihd, ihf⟩
        | updateAndNotify d async =>
            unfold UpdateAndNotify
            rw [Notify_fst_of_no_debounce (Update _ d) async ihf ihd]
            exact ⟨ihd, ihf⟩
        | timer =>
            exact ⟨(timerFire_fst_duration _).trans ihd,
              timerFire_fst_flag_of_false _ ihf⟩
        | clock t => exact ⟨ihd, ihf⟩
  exact ⟨key.1, key.2, fun async => Notify_snd_of_flag_false s async key.2⟩

/-- Witness for C10 at a concrete reachable state: register observer 7 on a
fresh subject, then notify once. -/
theorem subject_zero_debounce_invariant_witness :
    ((Notify (Register (NewSubject Nat 0) [7]) true).1).debounceDuration = 0 ∧
    ((Notify (Register (NewSubject Nat 0) [7]) true).1).debounceFlag = false ∧
    (Notify ((Notify (Register (NewSubject Nat 0) [7]) true).1) false).2 =
      notifyObserver ((Notify (Register (NewSubject Nat 0) [7]) true).1) false := by
  have h := subject_zero_debounce_invariant 0 _
    (Reachable.step (Reachable.step Reachable.base (Step.register _ [7]))
      (Step.notify _ true))
  exact ⟨h.1, h.2.1, h.2.2 false⟩

/-- Witness for C1 on a concrete subject with observers 1 and 2. -/
theorem subject_value_freshness_witness :
    (Notify (Update (Update (Register (NewSubject Nat 0) [1, 2]) 10) 20) false).2 =
      (Register (NewSubject Nat 0) [1, 2]).observers.map
        (fun o => { observer := o, value := 20, async := false }) ∧
    (∀ c ∈ (Notify (Update (Update (Register (NewSubject Nat 0) [1, 2]) 10) 20) false).2,
      c.value = 20 ∧ c.value ≠ 10) := by
  have h := subject_value_freshness (Register (NewSubject Nat 0) [1, 2]) 10 20 false
    (by decide) (by decide)
  exact ⟨h.1, h.2.1⟩

/-- Witness for C2 on a concrete subject with debounce duration 5. -/
theorem subject_debounce_leading_edge_witness :
    ((Register (NewSubjectWithDebounce Nat 0 5) [3]).debounceFlag = true →
      Notify (Register (NewSubjectWithDebounce Nat 0 5) [3]) false =
        (Register (NewSubjectWithDebounce Nat 0 5) [3], [])) ∧
    (Notify (Register (NewSubjectWithDebounce Nat 0 5) [3]) false).2 =
      notifyObserver (Register (NewSubjectWithDebounce Nat 0 5) [3]) false ∧
    timerFire (elapse (Notify (Register (NewSubjectWithDebounce Nat 0 5) [3]) false).1 5) =
      ({ elapse (Notify (Register (NewSubjectWithDebounce Nat 0 5) [3]) false).1 5 with
          debounceFlag := false, timer := none }, []) := by
  have h := subject_debounce_leading_edge (Register (NewSubjectWithDebounce Nat 0 5) [3])
    false (by decide)
  have h3 := h.2.2 (by decide)
  exact ⟨h.1, h3.1, h3.2.2.2 5 (by decide)⟩

/-- A `Publish` on an open broker appends the tagged event to the queue. -/
theorem Publish_fst_of_open {T D : Type} (b : Broker T D) (e : Event T D) (a : Bool)
    (h : b.closed = false) :
    (Publish b e a).1 = { b with queue := b.queue ++ [{ e with async := a }] } := by
  unfold Publish sendQueue
  rw [h]
  simp

/-- C3: Post-close publish is a swallowed no-op — after `Close`, a
`Publish` returns normally (the deferred `recover` swallows the panic the
raw channel send raises), enqueues nothing, and the worker delivers the
event to no subscriber. -/
theorem broker_post_close_publish_noop {T D : Type} [DecidableEq T]
    (b : Broker T D) (e : Event T D) (async : Bool) :
    Publish (Close b) e async = ((Close b), { e with async := async }) ∧
    sendQueue (Close b) { e with async := async } = ((Close b), SendResult.panicked) ∧
    (Publish (Close b) e async).1.queue = b.queue ∧
    workerRun (Publish (Close b) e async).1 = [] := by
  have hclosed : (Close b).closed = true := rfl
  have hsend : sendQueue (Close b) { e with async := async } =
      ((Close b), SendResult.panicked) := by
    unfold sendQueue
    rw [hclosed]
    simp
  have hpub : Publish (Close b) e async = ((Close b), { e with async := async }) := by
    show ((sendQueue (Close b) { e with async := async }).1, { e with async := async }) =
      ((Close b), { e with async := async })
    rw [hsend]
  have hb : ∀ x : Event T D, broadcast (Close b) x = [] := by
    intro x
    unfold broadcast loadTopic
    simp [Close, RemoveAll]
  refine ⟨hpub, hsend, ?_, ?_⟩
  · rw [hpub]
    rfl
  · rw [hpub]
    unfold workerRun
    simp [hb]

/-- C5: Broker topic isolation — `broadcast` invokes `OnSubscribe` exactly
on the subscribers registered for the event's topic, hands them the event
itself, invokes nobody else, and does nothing when the topic has no
registry. -/
theorem broker_topic_isolation {T D : Type} [DecidableEq T]
    (b : Broker T D) (e : Event T D) :
    broadcast b e =
      ((loadTopic b e.topic).getD []).map
        (fun x => { subscriber := x, event := e }) ∧
    (loadTopic b e.topic = none → broadcast b e = []) ∧
    (∀ x : Nat, x ∉ (loadTopic b e.topic).getD [] →
      ∀ c ∈ broadcast b e, c.subscriber ≠ x) ∧
    (∀ c ∈ broadcast b e, c.event = e) := by
  have hmain : broadcast b e =
      ((loadTopic b e.topic).getD []).map
        (fun x => ({ subscriber := x, event := e } : SubCall T D)) := by
    unfold broadcast
    rcases h : loadTopic b e.topic with _ | subs <;> rfl
  refine ⟨hmain, ?_, ?_, ?_⟩
  · intro h
    rw [hmain, h]
    rfl
  · intro x hx c hc
    rw [hmain] at hc
    simp only [List.mem_map] at hc
    obtain ⟨y, hy, rfl⟩ := hc
    exact fun hcon => hx (hcon ▸ hy)
  · intro c hc
    rw [hmain] at hc
    simp only [List.mem_map] at hc
    obtain ⟨y, _, rfl⟩ := hc
    rfl

/-- Witness for C5: subscriber 1 on topic 1, subscriber 2 on topic 2; an
event on topic 1 reaches exactly subscriber 1 and not subscriber 2. -/
theorem broker_topic_isolation_witness :
    broadcast (Subscribe (Subscribe (NewBroker Nat Nat) 1 [1]) 2 [2]) (NewEvent 1 99) =
      [{ subscriber := 1, event := NewEvent 1 99 }] ∧
    ({ subscriber := 1, event := NewEvent 1 99 } : SubCall Nat Nat).subscriber ≠ 2 := by
  have h := broker_topic_isolation (Subscribe (Subscribe (NewBroker Nat Nat) 1 [1]) 2 [2])
    (NewEvent 1 99)
  refine ⟨?_, h.2.2.1 2 (by decide) { subscriber := 1, event := NewEvent 1 99 } ?_⟩
  · rw [h.1]
    decide
  · rw [h.1]
    decide

/-- C6: Global FIFO dispatch order — two events published in order onto an
open broker sit in the queue in publish order regardless of topic, and the
single worker's dispatch trace is all of the first event's dispatch
followed by the second event's dispatch. -/
theorem broker_fifo_dispatch_order {T D : Type} [DecidableEq T]
    (b : Broker T D) (e1 e2 : Event T D) (a1 a2 : Bool)
    (h : b.closed = false) :
    (Publish (Publish b e1 a1).1 e2 a2).1.queue =
      b.queue ++ [{ e1 with async := a1 }, { e2 with async := a2 }] ∧
    workerRun (Publish (Publish b e1 a1).1 e2 a2).1 =
      ((b.queue ++ [{ e1 with async := a1 }]).map
        (fun x => broadcast (Publish (Publish b e1 a1).1 e2 a2).1 x)).flatten ++
      broadcast (Publish (Publish b e1 a1).1 e2 a2).1 { e2 with async := a2 } := by
  have h1 := Publish_fst_of_open b e1 a1 h
  have h1c : (Publish b e1 a1).1.closed = false := by rw [h1]; exact h
  have hq : (Publish (Publish b e1 a1).1 e2 a2).1.queue =
      (b.queue ++ [{ e1 with async := a1 }]) ++ [{ e2 with async := a2 }] := by
    rw [Publish_fst_of_open (Publish b e1 a1).1 e2 a2 h1c]
    show (Publish b e1 a1).1.queue ++ [{ e2 with async := a2 }] = _
    rw [h1]
  constructor
  · rw [hq]
    simp
  · unfold workerRun
    rw [hq]
    simp

/-- Witness for C6: two events on different topics published in order onto
a fresh broker with one subscriber end up queued in publish order. -/
theorem broker_fifo_dispatch_order_witness :
    (Publish (Publish (Subscribe (NewBroker Nat Nat) 1 [4]) (NewEvent 1 10) true).1
      (NewEvent 2 20) false).1.queue =
      [{ topic := 1, data := 10, async := true }, { topic := 2, data := 20, async := false }] := by
  have h := broker_fifo_dispatch_order (Subscribe (NewBroker Nat Nat) 1 [4])
    (NewEvent 1 10) (NewEvent 2 20) true false rfl
  rw [h.1]
  decide

/-- C9: Event immutability up to the mode tag — `Publish` changes only the
event's `async` field (topic and data read back unchanged through
`GetTopic`/`GetData`), the enqueued event is exactly the tagged event,
`broadcast` hands subscribers the event object unmodified, and `NewEvent`
builds the event from its two arguments with the tag clear. -/
theorem event_immutable_up_to_mode {T D : Type} [DecidableEq T]
    (b : Broker T D) (e : Event T D) (async : Bool) (t : T) (d : D) :
    (Publish b e async).2 = { e with async := async } ∧
    GetTopic (Publish b e async).2 = GetTopic e ∧
    GetData (Publish b e async).2 = GetData e ∧
    (b.closed = false →
      (Publish b e async).1.queue = b.queue ++ [{ e with async := async }]) ∧
    (∀ c ∈ broadcast b e, c.event = e) ∧
    GetTopic (NewEvent t d) = t ∧ GetData (NewEvent t d) = d ∧
    (NewEvent t d).async = false := by
  refine ⟨rfl, rfl, rfl, ?_, ?_, rfl, rfl, rfl⟩
  · intro h
    rw [Publish_fst_of_open b e async h]
  · intro c hc
    unfold broadcast at hc
    rcases hl : loadTopic b e.topic with _ | subs
    · rw [hl] at hc
      simp at hc
    · rw [hl] at hc
      simp only [List.mem_map] at hc
      obtain ⟨x, _, rfl⟩ := hc
      rfl

/-- Witness for C9 on a concrete broker and event. -/
theorem event_immutable_up_to_mode_witness :
    (Publish (NewBroker Nat Nat) (NewEvent 3 7) true).2 =
      { topic := 3, data := 7, async := true } ∧
    GetTopic (Publish (NewBroker Nat Nat) (NewEvent 3 7) true).2 = GetTopic (NewEvent 3 7) ∧
    (Publish (NewBroker Nat Nat) (NewEvent 3 7) true).1.queue =
      [{ topic := 3, data := 7, async := true }] := by
  have h := event_immutable_up_to_mode (NewBroker Nat Nat) (NewEvent 3 7) true 3 7
  refine ⟨h.1, h.2.1, ?_⟩
  rw [h.2.2.2.1 rfl]
  decide

/-- Projecting the observer ids back out of a `notifyObserver` trace gives
the registry. -/
theorem map_observer_notifyObserver {T : Type} (s : Subject T) (async : Bool) :
    ((notifyObserver s async).map Call.observer) = s.observers := by
  unfold notifyObserver
  rw [List.map_map]
  have h : (Call.observer ∘ fun o =>
      ({ observer := o, value := s.data, async := async } : Call T)) = fun o => o := rfl
  rw [h, List.map_id_fun']
  rfl

/-- `Subscribe` rewrites only the subscriber map, in `Store` fashion. -/
theorem Subscribe_subscribers {T D : Type} [DecidableEq T]
    (b : Broker T D) (t : T) (ns : List Nat) :
    (Subscribe b t ns).subscribers =
      storeTopic b.subscribers t (ns.foldl storeKey ((loadTopic b t).getD [])) := rfl

/-- C4: Registration idempotence — registering the same observer twice on a
subject (resp. subscribing the same subscriber twice to a broker topic)
leaves the registry exactly as registering once, and one subsequent
notification (resp. dispatch) invokes that listener exactly once. -/
theorem registration_idempotent {T D : Type} [DecidableEq T]
    (s : Subject T) (o : Nat) (async : Bool)
    (b : Broker T D) (t : T) (x : Nat) (e : Event T D)
    (hflag : s.debounceFlag = false)
    (hndS : s.observers.Nodup)
    (hndB : ((loadTopic b t).getD []).Nodup)
    (hetopic : e.topic = t) :
    Register (Register s [o]) [o] = Register s [o] ∧
    ((Notify (Register (Register s [o]) [o]) async).2.map Call.observer).count o = 1 ∧
    Subscribe (Subscribe b t [x]) t [x] = Subscribe b t [x] ∧
    ((broadcast (Subscribe (Subscribe b t [x]) t [x]) e).map SubCall.subscriber).count x
      = 1 := by
  have hreg : Register (Register s [o]) [o] = Register s [o] := by
    unfold Register
    simp [storeKey_of_mem (mem_storeKey_self s.observers o)]
  have h2 : ((Notify (Register (Register s [o]) [o]) async).2.map Call.observer).count o
      = 1 := by
    rw [hreg]
    rw [Notify_snd_of_flag_false (Register s [o]) async hflag,
      map_observer_notifyObserver]
    show (List.foldl storeKey s.observers [o]).count o = 1
    simp only [List.foldl_cons, List.foldl_nil]
    exact List.count_eq_one_of_mem (nodup_storeKey o hndS) (mem_storeKey_self _ _)
  have hl1 : loadTopic (Subscribe b t [x]) t =
      some ([x].foldl storeKey ((loadTopic b t).getD [])) :=
    loadTopic_storeTopic _ b.subscribers t _ (Subscribe_subscribers b t [x])
  have hsub : Subscribe (Subscribe b t [x]) t [x] = Subscribe b t [x] := by
    have hA : (Subscribe (Subscribe b t [x]) t [x]).subscribers =
        (Subscribe b t [x]).subscribers := by
      rw [Subscribe_subscribers (Subscribe b t [x]) t [x], hl1,
        Subscribe_subscribers b t [x]]
      simp only [Option.getD_some, List.foldl_cons, List.foldl_nil]
      rw [storeKey_of_mem (mem_storeKey_self _ x)]
      exact storeTopic_storeTopic _ _ _ _
    calc Subscribe (Subscribe b t [x]) t [x]
        = { Subscribe b t [x] with
            subscribers := (Subscribe (Subscribe b t [x]) t [x]).subscribers } := rfl
      _ = { Subscribe b t [x] with
            subscribers := (Subscribe b t [x]).subscribers } := by rw [hA]
      _ = Subscribe b t [x] := rfl
  refine ⟨hreg, h2, hsub, ?_⟩
  rw [hsub]
  unfold broadcast
  rw [hetopic, hl1]
  show (((([x].foldl storeKey ((loadTopic b t).getD []))).map
    (fun y => ({ subscriber := y, event := e } : SubCall T D))).map
      SubCall.subscriber).count x = 1
  simp only [List.foldl_cons, List.foldl_nil, List.map_map]
  have hid : (SubCall.subscriber ∘ fun y => ({ subscriber := y, event := e } : SubCall T D))
      = fun y => y := rfl
  rw [hid, List.map_id_fun']
  exact List.count_eq_one_of_mem (nodup_storeKey x hndB) (mem_storeKey_self _ _)

/-- Witness for C4: observer 6 registered twice on a fresh subject;
subscriber 8 subscribed twice to topic 1 on a fresh broker. -/
theorem registration_idempotent_witness :
    Register (Register (NewSubject Nat 0) [6]) [6] = Register (NewSubject Nat 0) [6] ∧
    ((Notify (Register (Register (NewSubject Nat 0) [6]) [6]) false).2.map
      Call.observer).count 6 = 1 ∧
    Subscribe (Subscribe (NewBroker Nat Nat) 1 [8]) 1 [8] =
      Subscribe (NewBroker Nat Nat) 1 [8] ∧
    ((broadcast (Subscribe (Subscribe (NewBroker Nat Nat) 1 [8]) 1 [8]) (NewEvent 1 0)).map
      SubCall.subscriber).count 8 = 1 :=
  registration_idempotent (NewSubject Nat 0) 6 false (NewBroker Nat Nat) 1 8 (NewEvent 1 0)
    rfl (by decide) (by decide) rfl

/-- Projecting the observer ids back out of a fan-out trace over iteration
order `π` gives `π` itself. -/
theorem map_observer_notifyObserverIn {T : Type} (s : Subject T) (π : List Nat)
    (async : Bool) :
    ((notifyObserverIn s π async).map Call.observer) = π := by
  unfold notifyObserverIn
  rw [List.map_map]
  have h : (Call.observer ∘ fun o =>
      ({ observer := o, value := s.data, async := async } : Call T)) = fun o => o := rfl
  rw [h, List.map_id_fun']
  rfl

/-- C8 counterexample: the registration-order clause fails. On the subject
whose registry is `[1, 2]` (observer 1 registered before observer 2), the
order `[2, 1]` is a permutation of the registry — hence a `Range`
iteration order Go permits, since `sync.Map.Range` guarantees no order —
and the synchronous fan-out under it differs from the
registration-order trace, so `Notify(false)` does not invoke observers in
listener-registration iteration order. -/
theorem subject_sync_fanout_order_counterexample :
    ((Register (NewSubject Nat 0) [1, 2]).observers).Perm [2, 1] ∧
    notifyObserverIn (Register (NewSubject Nat 0) [1, 2]) [2, 1] false ≠
      (Register (NewSubject Nat 0) [1, 2]).observers.map
        (fun o => { observer := o, value := 0, async := false }) := by
  constructor
  · decide
  · decide

/-- C8 amended: Synchronous fan-out — `Notify(false)` on a clear gate
invokes each registered observer's `OnUpdate` exactly once, inline on the
caller's thread (no goroutine) with the subject's current data, all before
`Notify` returns; the invocation order is `sync.Map.Range`'s iteration
order, an unspecified permutation of the registry with no guaranteed
relation to registration order, and the modelled `Notify` trace realises
one such permitted order. -/
theorem subject_sync_fanout_unordered {T : Type} (s : Subject T) (π : List Nat)
    (hflag : s.debounceFlag = false) (hperm : s.observers.Perm π)
    (hnd : s.observers.Nodup) :
    (Notify s false).2 = notifyObserverIn s s.observers false ∧
    (∀ c ∈ notifyObserverIn s π false, c.async = false ∧ c.value = s.data) ∧
    ((notifyObserverIn s π false).map Call.observer).Perm s.observers ∧
    (∀ o ∈ s.observers, ((notifyObserverIn s π false).map Call.observer).count o = 1) := by
  refine ⟨?_, ?_, ?_, ?_⟩
  · rw [Notify_snd_of_flag_false s false hflag]
    rfl
  · intro c hc
    unfold notifyObserverIn at hc
    simp only [List.mem_map] at hc
    obtain ⟨o, _, rfl⟩ := hc
    exact ⟨rfl, rfl⟩
  · rw [map_observer_notifyObserverIn]
    exact hperm.symm
  · intro o ho
    rw [map_observer_notifyObserverIn]
    rw [← hperm.count_eq o]
    exact List.count_eq_one_of_mem hnd ho

/-- Witness for the C8 amended theorem: registry `[1, 2]`, `Range` order
`[2, 1]`. -/
theorem subject_sync_fanout_unordered_witness :
    (Notify (Register (NewSubject Nat 42) [1, 2]) false).2 =
      notifyObserverIn (Register (NewSubject Nat 42) [1, 2])
        (Register (NewSubject Nat 42) [1, 2]).observers false ∧
    ((notifyObserverIn (Register (NewSubject Nat 42) [1, 2]) [2, 1] false).map
      Call.observer).count 1 = 1 := by
  have h := subject_sync_fanout_unordered (Register (NewSubject Nat 42) [1, 2]) [2, 1]
    rfl (by decide) (by decide)
  exact ⟨h.1, h.2.2.2 1 (by decide)⟩

/-- C7 counterexample: `UpdateAndNotify` is two separate atomic steps (the
unlocked data store, then the locked notify body), and the schedule
placing a concurrent `Update(2)` between the two steps of
`UpdateAndNotify(1, false)` is a legal interleaving under which the
notification delivers 2, not 1 — so a concurrent `Update` CAN be
interleaved between the value store and the notification of a single
`UpdateAndNotify` call. -/
theorem updateAndNotify_atomicity_counterexample :
    UpdateAndNotify (⟨0, [0], 0, false, 0, none⟩ : Subject Nat) 1 false =
      runActs ⟨0, [0], 0, false, 0, none⟩ [Act.store 1, Act.notify false] ∧
    [Act.store 1, Act.store 2, Act.notify false] ∈
      interleavings [Act.store (1 : Nat), Act.notify false] [Act.store 2] ∧
    (runActs (⟨0, [0], 0, false, 0, none⟩ : Subject Nat)
      [Act.store 1, Act.store 2, Act.notify false]).2 =
      [{ observer := 0, value := 2, async := false }] ∧
    (2 : Nat) ≠ 1 := by
  have heq : interleavings [Act.store (1 : Nat), Act.notify false] [Act.store 2] =
      [[Act.store 1, Act.notify false, Act.store 2],
       [Act.store 1, Act.store 2, Act.notify false],
       [Act.store 2, Act.store 1, Act.notify false]] := by
    simp [interleavings]
  refine ⟨by decide, ?_, by decide, by decide⟩
  rw [heq]
  exact List.mem_cons_of_mem _ (List.mem_cons_self _ _)

/-- C7 amended: `UpdateAndNotify(data, async)` is `Update` followed by
`Notify` as two separate atomic steps — the data store is not guarded by
the subject's lock, only the notify body is — so a concurrent `Update` may
be interleaved between the value store and the notification, in which case
the notification delivers the interleaved writer's value (the subject's
current data at the moment `Notify` fires). -/
theorem updateAndNotify_two_step_interleaving {T : Type} (s : Subject T) (a b : T)
    (async : Bool) (hflag : s.debounceFlag = false) :
    UpdateAndNotify s a async = runActs s [Act.store a, Act.notify async] ∧
    [Act.store a, Act.store b, Act.notify async] ∈
      interleavings [Act.store a, Act.notify async] [Act.store b] ∧
    (runActs s [Act.store a, Act.store b, Act.notify async]).2 =
      s.observers.map (fun o => { observer := o, value := b, async := async }) := by
  refine ⟨?_, ?_, ?_⟩
  · simp [UpdateAndNotify, runActs, runAct]
  · have heq : interleavings [Act.store a, Act.notify async] [Act.store b] =
        [[Act.store a, Act.notify async, Act.store b],
         [Act.store a, Act.store b, Act.notify async],
         [Act.store b, Act.store a, Act.notify async]] := by
      simp [interleavings]
    rw [heq]
    exact List.mem_cons_of_mem _ (List.mem_cons_self _ _)
  · have hflag2 : (Update (Update s a) b).debounceFlag = false := hflag
    simp only [runActs, runAct]
    rw [Notify_snd_of_flag_false (Update (Update s a) b) async hflag2]
    simp [notifyObserver, Update]

/-- Witness for the C7 amended theorem on a concrete subject. -/
theorem updateAndNotify_two_step_interleaving_witness :
    UpdateAndNotify (⟨5, [3], 0, false, 0, none⟩ : Subject Nat) 1 true =
      runActs ⟨5, [3], 0, false, 0, none⟩ [Act.store 1, Act.notify true] ∧
    (runActs (⟨5, [3], 0, false, 0, none⟩ : Subject Nat)
      [Act.store 1, Act.store 2, Act.notify true]).2 =
      [{ observer := 3, value := 2, async := true }] := by
  have h := updateAndNotify_two_step_interleaving
    (⟨5, [3], 0, false, 0, none⟩ : Subject Nat) 1 2 true rfl
  refine ⟨h.1, ?_⟩
  rw [h.2.2]
  decide

end GopherNotify
